import Mathlib

/-!
Verification of the marble-image generator (`src/endpoints/marbleImage.ts`).

The endpoint's core is a pure computation: a seed string (username ++
millisecond timestamp) is hashed (xmur3), expanded into a stream of
uniform draws in [0,1) (mulberry32), and the draws are turned into the
parameters of a two-layer SVG turbulence/displacement filter graph.

Shallow-embedding conventions:
* JavaScript 32-bit integer arithmetic is modelled on `Nat` with explicit
  `% 4294967296`; `Math.imul`, `>>>`, `|`, `^` become the corresponding
  `Nat` operations (for values below 2^32 the signed/unsigned views agree
  modulo 2^32, which the modelling uses throughout).
* JavaScript floating-point numbers are modelled as exact rationals `ℚ`;
  every claim proved here is insensitive to the difference (the checked
  inputs keep large margins from every comparison boundary).
* `Number.prototype.toFixed` is modelled by `formatFixed` (round half up
  to `d` decimal places); the string-equality claims only need it to be a
  deterministic function of its input.
* The RNG is threaded as an indexed stream `s : ℕ → ℚ`, `s i` being the
  value of the (i+1)-th `rand()` call; the generator consumes draws in the
  source's fixed textual order, reproduced by the indices below.
-/

namespace Marble

/-- 32-bit wraparound multiplication: `Math.imul` on the unsigned view. -/
def imul32 (x y : ℕ) : ℕ := x * y % 4294967296

/-- 32-bit rotate left by `k`: `(h << k) | (h >>> (32 - k))` in the source. -/
def rotl32 (x k : ℕ) : ℕ := (x <<< k) % 4294967296 ||| x >>> (32 - k)

/-- One loop iteration of `xmur3`: `h = imul(h ^ ch, 3432918353); h = (h << 13) | (h >>> 19)`. -/
def xmur3Fold (h ch : ℕ) : ℕ := rotl32 (imul32 (Nat.xor h ch) 3432918353) 13

/-- The seed: `xmur3(str)` folded over the UTF-16 code units (`Char.toNat`
agrees with `charCodeAt` on the BMP text the claims use), then the returned
closure called once (the two avalanche rounds and final xor-shift). -/
def xmur3Seed (str : String) : ℕ :=
  let h0 := Nat.xor 1779033703 (str.length % 4294967296)
  let h := str.toList.foldl (fun h c => xmur3Fold h c.toNat) h0
  let h1 := imul32 (Nat.xor h (h >>> 16)) 2246822507
  let h2 := imul32 (Nat.xor h1 (h1 >>> 13)) 3266489909
  Nat.xor h2 (h2 >>> 16)

/-- `mulberry32`: the accumulator advance `a += 0x6d2b79f5` with 32-bit
wraparound. -/
def mulberry32Next (a : ℕ) : ℕ := (a + 0x6d2b79f5) % 4294967296

/-- `mulberry32`: the avalanche applied to the advanced accumulator, giving
the 32-bit output word
(`t = imul(t ^ (t >>> 15), t | 1); t ^= t + imul(t ^ (t >>> 7), t | 61);
return (t ^ (t >>> 14)) >>> 0`). -/
def mulberry32Out (a : ℕ) : ℕ :=
  let t1 := imul32 (Nat.xor a (a >>> 15)) (a ||| 1)
  let t2 := Nat.xor t1 ((t1 + imul32 (Nat.xor t1 (t1 >>> 7)) (t1 ||| 61)) % 4294967296)
  Nat.xor t2 (t2 >>> 14)

/-- The accumulator after the (n+1)-th call to the `mulberry32` closure. -/
def mulberry32State (seed : ℕ) : ℕ → ℕ
  | 0 => mulberry32Next seed
  | n + 1 => mulberry32Next (mulberry32State seed n)

/-- The (n+1)-th value of the `mulberry32` stream: the 32-bit output divided
by 4294967296. -/
def mulberry32Draw (seed : ℕ) (n : ℕ) : ℚ :=
  (mulberry32Out (mulberry32State seed n) : ℚ) / 4294967296

/-- The seed key: `` `${username ?? ""}${ts}` `` — the username (empty when
absent) concatenated, with no separator, with the millisecond timestamp. -/
def seedStr (username : Option String) (ts : ℤ) : String :=
  username.getD "" ++ toString ts

/-- The four color presets of `ColorPreset` (`types.ts`). -/
inductive ColorPreset where
  | white
  | black
  | blue
  | red
deriving DecidableEq

/-- `colorPairs`: primary base color and secondary vein color per preset. -/
def colorPairs : ColorPreset → String × String
  | .white => ("#ffffff", "#0a0a0a")
  | .black => ("#0b0b0b", "#d4af37")
  | .blue => ("#1e3a8a", "#7c3aed")
  | .red => ("#7f1d1d", "#111111")

/-- The three size classes of the `size` query parameter. -/
inductive SizeClass where
  | s16x9
  | s9x16
  | s1x1
deriving DecidableEq

/-- `getDimensions`: the internal drawing dimensions (the source's `default`
branch is the 1:1 case). -/
def getDimensions : SizeClass → ℕ × ℕ
  | .s16x9 => (1600, 900)
  | .s9x16 => (900, 1600)
  | _ => (1000, 1000)

/-- The resolution tiers of the `resolution` query parameter. -/
inductive Resolution where
  | native
  | r2k
  | r4k
  | r8k
deriving DecidableEq

/-- The declared output pixel size: the `switch (resolution)` block computing
`(outW, outH)`; `native` (the source's `default` branch) keeps the internal
dimensions. -/
def outDimensions (resolution : Resolution) (size : SizeClass) : ℕ × ℕ :=
  match resolution with
  | .r4k =>
    match size with
    | .s16x9 => (3840, 2160)
    | .s9x16 => (2160, 3840)
    | _ => (3840, 3840)
  | .r2k =>
    match size with
    | .s16x9 => (2560, 1440)
    | .s9x16 => (1440, 2560)
    | _ => (2048, 2048)
  | .r8k =>
    match size with
    | .s16x9 => (7680, 4320)
    | .s9x16 => (4320, 7680)
    | _ => (7680, 7680)
  | .native => getDimensions size

/-- `Math.round` on a nonnegative value: floor of the value plus one half. -/
def jsRound (q : ℚ) : ℤ := ⌊q + 1/2⌋

/-- Left-pad a digit string with zeros to `d` characters. -/
def padZeros (d : ℕ) (str : String) : String :=
  String.mk (List.replicate (d - str.length) '0') ++ str

/-- `toFixed(d)` for a nonnegative rational: round half up to `d` decimal
places and print with exactly `d` fractional digits. -/
def formatFixed (q : ℚ) (d : ℕ) : String :=
  let m := (⌊q * (10 : ℚ) ^ d + 1/2⌋).toNat
  toString (m / 10 ^ d) ++ "." ++ padZeros d (toString (m % 10 ^ d))

/-- Draw 1: `baseFreq = 0.005 + rand() * 0.01`. -/
def baseFreq (s : ℕ → ℚ) : ℚ := 0.005 + s 0 * 0.01

/-- Draw 2: `octaves = 3 + Math.floor(rand() * 3)`. -/
def octaves (s : ℕ → ℚ) : ℕ := 3 + (⌊s 1 * 3⌋).toNat

/-- Draw 3: `seedNoise = Math.floor(rand() * 4096)`. -/
def seedNoise (s : ℕ → ℚ) : ℕ := (⌊s 2 * 4096⌋).toNat

/-- Draw 4: `rotate = Math.floor(rand() * 360)` — computed but never used in
the generated document. -/
def rotate (s : ℕ → ℚ) : ℕ := (⌊s 3 * 360⌋).toNat

/-- Draw 5: `contrast = 0.6 + rand() * 0.6` — computed but never used in the
generated document. -/
def contrast (s : ℕ → ℚ) : ℚ := 0.6 + s 4 * 0.6

/-- The numeric value behind `veinOpacity1` (draw 6), before `toFixed(2)`:
`isBlack ? 0.35 + rand() * 0.1 : isWhite ? 0.35 + rand() * 0.15
 : 0.22 + rand() * 0.1`. -/
def veinOpacity1Val (color : ColorPreset) (r : ℚ) : ℚ :=
  if color = .black then 0.35 + r * 0.1
  else if color = .white then 0.35 + r * 0.15
  else 0.22 + r * 0.1

/-- The numeric value behind `veinOpacity2` (draw 7), before `toFixed(2)`:
`isBlack ? 0.2 + rand() * 0.08 : isWhite ? 0.18 + rand() * 0.1
 : 0.1 + rand() * 0.08`. -/
def veinOpacity2Val (color : ColorPreset) (r : ℚ) : ℚ :=
  if color = .black then 0.2 + r * 0.08
  else if color = .white then 0.18 + r * 0.1
  else 0.1 + r * 0.08

/-- `veinOpacity1` as it appears in the document (formatted to 2 places). -/
def veinOpacity1 (color : ColorPreset) (s : ℕ → ℚ) : String :=
  formatFixed (veinOpacity1Val color (s 5)) 2

/-- `veinOpacity2` as it appears in the document (formatted to 2 places). -/
def veinOpacity2 (color : ColorPreset) (s : ℕ → ℚ) : String :=
  formatFixed (veinOpacity2Val color (s 6)) 2

/-- `warpFx = (baseFreq * 0.35).toFixed(4)`. -/
def warpFx (s : ℕ → ℚ) : String := formatFixed (baseFreq s * 0.35) 4

/-- `warpFy = (baseFreq * 1.4).toFixed(4)`. -/
def warpFy (s : ℕ → ℚ) : String := formatFixed (baseFreq s * 1.4) 4

/-- `veinFx = (baseFreq * 1.6).toFixed(4)`. -/
def veinFx (s : ℕ → ℚ) : String := formatFixed (baseFreq s * 1.6) 4

/-- `veinFy = (baseFreq * 0.9).toFixed(4)`. -/
def veinFy (s : ℕ → ℚ) : String := formatFixed (baseFreq s * 0.9) 4

/-- `warpFx2 = (baseFreq * 0.45).toFixed(4)`. -/
def warpFx2 (s : ℕ → ℚ) : String := formatFixed (baseFreq s * 0.45) 4

/-- `warpFy2 = (baseFreq * 1.2).toFixed(4)`. -/
def warpFy2 (s : ℕ → ℚ) : String := formatFixed (baseFreq s * 1.2) 4

/-- `veinFx2 = (baseFreq * 1.3).toFixed(4)`. -/
def veinFx2 (s : ℕ → ℚ) : String := formatFixed (baseFreq s * 1.3) 4

/-- `veinFy2 = (baseFreq * 1.0).toFixed(4)`. -/
def veinFy2 (s : ℕ → ℚ) : String := formatFixed (baseFreq s * 1.0) 4

/-- Number of pulses of the threshold table (draw 8):
`pulses = 10 + Math.floor(rand() * 6)`. -/
def pulsesOf (r1 : ℚ) : ℕ := 10 + (⌊r1 * 6⌋).toNat

/-- Pulse width fraction of the threshold table (draw 9):
`widthFrac = 0.12 + rand() * 0.06`. -/
def widthFracOf (r2 : ℚ) : ℚ := 0.12 + r2 * 0.06

/-- One entry of the threshold table: `x = i / 63; phase = (x * pulses) % 1;
on = Math.abs(phase - 0.5) * 2 < widthFrac`. -/
def tableEntry (pulses : ℕ) (widthFrac : ℚ) (i : ℕ) : String :=
  let x : ℚ := i / 63
  let phase := Int.fract (x * pulses)
  if |phase - 0.5| * 2 < widthFrac then "1" else "0"

/-- The 64 entries of the threshold table, as a list. -/
def tableVals (r1 r2 : ℚ) : List String :=
  (List.range 64).map (tableEntry (pulsesOf r1) (widthFracOf r2))

/-- `tableValues`: the entries joined with single spaces, as interpolated into
the document; its pulse count is draw 8 and its width fraction draw 9. -/
def tableValuesStr (s : ℕ → ℚ) : String :=
  String.intercalate " " (tableVals (s 7) (s 8))

/-- The pulse an entry belongs to: entry `i` samples `x = i / 63`, which lies
in pulse `⌊x * pulses⌋`. -/
def pulseOf (pulses i : ℕ) : ℕ := (⌊(i : ℚ) / 63 * pulses⌋).toNat

/-- Whether some table entry of pulse `p` is on, i.e. whether the table has a
(then necessarily contiguous and nonempty) run of "1" entries in pulse `p`. -/
def pulseHasOn (r1 r2 : ℚ) (p : ℕ) : Bool :=
  (List.range 64).any fun i =>
    pulseOf (pulsesOf r1) i == p && tableEntry (pulsesOf r1) (widthFracOf r2) i == "1"

/-- Draw 10: the second turbulence octave count of the first vein filter,
`2 + Math.floor(rand() * 2)`. -/
def veinOct1 (s : ℕ → ℚ) : ℕ := 2 + (⌊s 9 * 2⌋).toNat

/-- Draw 11: gamma exponent of `feFuncR`, `(2.2 + rand() * 1.5).toFixed(2)`. -/
def gammaR (s : ℕ → ℚ) : String := formatFixed (2.2 + s 10 * 1.5) 2

/-- Draw 12: gamma exponent of `feFuncG`, `(2.2 + rand() * 1.5).toFixed(2)`. -/
def gammaG (s : ℕ → ℚ) : String := formatFixed (2.2 + s 11 * 1.5) 2

/-- Draw 13: gamma exponent of `feFuncB`, `(2.2 + rand() * 1.5).toFixed(2)`. -/
def gammaB (s : ℕ → ℚ) : String := formatFixed (2.2 + s 12 * 1.5) 2

/-- Draw 14: displacement scale of the first filter,
`Math.round(40 + rand() * 80)`. -/
def dispScale1 (s : ℕ → ℚ) : ℤ := jsRound (40 + s 13 * 80)

/-- Draw 15: blur deviation of the first filter,
`(0.8 + rand() * 0.8).toFixed(2)`. -/
def blur1 (s : ℕ → ℚ) : String := formatFixed (0.8 + s 14 * 0.8) 2

/-- Draw 16: the second turbulence octave count of the second vein filter,
`2 + Math.floor(rand() * 2)`. -/
def veinOct2 (s : ℕ → ℚ) : ℕ := 2 + (⌊s 15 * 2⌋).toNat

/-- Draw 17: displacement scale of the second filter,
`Math.round(55 + rand() * 65)`. -/
def dispScale2 (s : ℕ → ℚ) : ℤ := jsRound (55 + s 16 * 65)

/-- Draw 18: blur deviation of the second filter,
`(0.7 + rand() * 1.1).toFixed(2)`. -/
def blur2 (s : ℕ → ℚ) : String := formatFixed (0.7 + s 17 * 1.1) 2

/-- One filter primitive of a vein filter, as written in the document (each
constructor records the attributes the source interpolates). -/
inductive FilterStep where
  | turbulence (baseFreqX baseFreqY : String) (numOctaves seed : ℕ) (result : String)
  | colorMatrixSaturate (inp values result : String)
  | componentTransferGamma (inp exponentR exponentG exponentB result : String)
  | componentTransferTable (inp tableVals result : String)
  | componentTransferAlphaGamma (inp exponent result : String)
  | displacementMap (inp in2 : String) (scale : ℤ) (result : String)
  | gaussianBlur (inp stdDeviation result : String)
  | colorMatrixLumToAlpha (inp result : String)
  | compositeIn (inp in2 : String)

/-- Whether a filter step is a gamma contrast curve (`feComponentTransfer`
with `feFunc{R,G,B} type="gamma"`). -/
def isGammaContrastStep : FilterStep → Bool
  | .componentTransferGamma _ _ _ _ _ => true
  | _ => false

/-- The primitives of `<filter id="veinFilter">` in document order
(lines 182-228 of `marbleImage.ts`). -/
def veinFilter1Steps (s : ℕ → ℚ) : List FilterStep :=
  [.turbulence (warpFx s) (warpFy s) (octaves s) (seedNoise s) "warpMap",
   .turbulence (veinFx s) (veinFy s) (veinOct1 s) ((seedNoise s + 137) % 4096) "veinNoise",
   .colorMatrixSaturate "veinNoise" "0" "veinGray",
   .componentTransferGamma "veinGray" (gammaR s) (gammaG s) (gammaB s) "veinContrast",
   .componentTransferTable "veinContrast" (tableValuesStr s) "veinMask0",
   .displacementMap "veinMask0" "warpMap" (dispScale1 s) "veinMask1",
   .gaussianBlur "veinMask1" (blur1 s) "veinMaskSoft",
   .colorMatrixLumToAlpha "veinMaskSoft" "veinAlpha",
   .componentTransferAlphaGamma "veinAlpha" "0.7" "veinAlpha",
   .compositeIn "SourceGraphic" "veinAlpha"]

/-- The primitives of `<filter id="veinFilter2">` in document order
(lines 231-253 of `marbleImage.ts`): grayscale conversion feeds the table
threshold directly (`in="veinGray2"`), with no gamma step. -/
def veinFilter2Steps (s : ℕ → ℚ) : List FilterStep :=
  [.turbulence (warpFx2 s) (warpFy2 s) (octaves s) ((seedNoise s + 251) % 4096) "warpMap2",
   .turbulence (veinFx2 s) (veinFy2 s) (veinOct2 s) ((seedNoise s + 587) % 4096) "veinNoise2",
   .colorMatrixSaturate "veinNoise2" "0" "veinGray2",
   .componentTransferTable "veinGray2" (tableValuesStr s) "veinMask0b",
   .displacementMap "veinMask0b" "warpMap2" (dispScale2 s) "veinMask2",
   .gaussianBlur "veinMask2" (blur2 s) "veinMaskSoft2",
   .colorMatrixLumToAlpha "veinMaskSoft2" "veinAlpha2",
   .compositeIn "SourceGraphic" "veinAlpha2"]

/-- The markup of `<filter id="veinFilter">`, with the source template's
literal text and interpolations in order. -/
def veinFilter1Str (s : ℕ → ℚ) : String :=
  "    <filter id=\"veinFilter\" x=\"-40%\" y=\"-40%\" width=\"180%\" height=\"180%\" color-interpolation-filters=\"sRGB\">\n        <!-- Low-frequency anisotropic noise used as a warp field -->\n        <feTurbulence type=\"fractalNoise\" baseFrequency=\"" ++
  warpFx s ++ " " ++ warpFy s ++ "\" numOctaves=\"" ++ toString (octaves s) ++
  "\" seed=\"" ++ toString (seedNoise s) ++
  "\" result=\"warpMap\"/>\n\n        <!-- High-contrast, anisotropic noise narrowed to thin segments -->\n        <feTurbulence type=\"fractalNoise\" baseFrequency=\"" ++
  veinFx s ++ " " ++ veinFy s ++ "\" numOctaves=\"" ++ toString (veinOct1 s) ++
  "\" seed=\"" ++ toString ((seedNoise s + 137) % 4096) ++
  "\" result=\"veinNoise\"/>\n        <feColorMatrix in=\"veinNoise\" type=\"saturate\" values=\"0\" result=\"veinGray\"/>\n        <feComponentTransfer in=\"veinGray\" result=\"veinContrast\">\n          <feFuncR type=\"gamma\" amplitude=\"1\" exponent=\"" ++
  gammaR s ++
  "\" offset=\"0\"/>\n          <feFuncG type=\"gamma\" amplitude=\"1\" exponent=\"" ++
  gammaG s ++
  "\" offset=\"0\"/>\n          <feFuncB type=\"gamma\" amplitude=\"1\" exponent=\"" ++
  gammaB s ++
  "\" offset=\"0\"/>\n        </feComponentTransfer>\n        <!-- Moderate band threshold to reveal visible veins -->\n        <feComponentTransfer in=\"veinContrast\" result=\"veinMask0\">\n          <feFuncR type=\"table\" tableValues=\"" ++
  tableValuesStr s ++ "\"/>\n          <feFuncG type=\"table\" tableValues=\"" ++
  tableValuesStr s ++ "\"/>\n          <feFuncB type=\"table\" tableValues=\"" ++
  tableValuesStr s ++
  "\"/>\n        </feComponentTransfer>\n\n        <!-- Warp and thin the mask to create flowing veins -->\n        <feDisplacementMap in=\"veinMask0\" in2=\"warpMap\" xChannelSelector=\"R\" yChannelSelector=\"G\" scale=\"" ++
  toString (dispScale1 s) ++
  "\" result=\"veinMask1\"/>\n        <feGaussianBlur in=\"veinMask1\" stdDeviation=\"" ++
  blur1 s ++
  "\" result=\"veinMaskSoft\"/>\n        <feColorMatrix in=\"veinMaskSoft\" type=\"luminanceToAlpha\" result=\"veinAlpha\"/>\n        <!-- Boost alpha so veins remain visible over dark bases -->\n        <feComponentTransfer in=\"veinAlpha\" result=\"veinAlpha\">\n          <feFuncA type=\"gamma\" amplitude=\"1\" exponent=\"0.7\" offset=\"0\"/>\n        </feComponentTransfer>\n\n        <!-- Apply alpha to the vein-colored rect only where veins exist -->\n        <feComposite in=\"SourceGraphic\" in2=\"veinAlpha\" operator=\"in\"/>\n    </filter>\n"

/-- The markup of `<filter id="veinFilter2">`, with the source template's
literal text and interpolations in order. -/
def veinFilter2Str (s : ℕ → ℚ) : String :=
  "    <filter id=\"veinFilter2\" x=\"-40%\" y=\"-40%\" width=\"180%\" height=\"180%\" color-interpolation-filters=\"sRGB\">\n        <feTurbulence type=\"fractalNoise\" baseFrequency=\"" ++
  warpFx2 s ++ " " ++ warpFy2 s ++ "\" numOctaves=\"" ++ toString (octaves s) ++
  "\" seed=\"" ++ toString ((seedNoise s + 251) % 4096) ++
  "\" result=\"warpMap2\"/>\n        <feTurbulence type=\"fractalNoise\" baseFrequency=\"" ++
  veinFx2 s ++ " " ++ veinFy2 s ++ "\" numOctaves=\"" ++ toString (veinOct2 s) ++
  "\" seed=\"" ++ toString ((seedNoise s + 587) % 4096) ++
  "\" result=\"veinNoise2\"/>\n        <feColorMatrix in=\"veinNoise2\" type=\"saturate\" values=\"0\" result=\"veinGray2\"/>\n        <feComponentTransfer in=\"veinGray2\" result=\"veinMask0b\">\n          <feFuncR type=\"table\" tableValues=\"" ++
  tableValuesStr s ++ "\"/>\n          <feFuncG type=\"table\" tableValues=\"" ++
  tableValuesStr s ++ "\"/>\n          <feFuncB type=\"table\" tableValues=\"" ++
  tableValuesStr s ++
  "\"/>\n        </feComponentTransfer>\n        <feDisplacementMap in=\"veinMask0b\" in2=\"warpMap2\" xChannelSelector=\"R\" yChannelSelector=\"G\" scale=\"" ++
  toString (dispScale2 s) ++
  "\" result=\"veinMask2\"/>\n        <feGaussianBlur in=\"veinMask2\" stdDeviation=\"" ++
  blur2 s ++
  "\" result=\"veinMaskSoft2\"/>\n        <feColorMatrix in=\"veinMaskSoft2\" type=\"luminanceToAlpha\" result=\"veinAlpha2\"/>\n        <feComposite in=\"SourceGraphic\" in2=\"veinAlpha2\" operator=\"in\"/>\n    </filter>\n"

/-- The opening `<svg>` tag: declared output dimensions `outW`/`outH` and the
`viewBox` built from the internal dimensions `w`/`h`. -/
def svgOpenTag (outW outH w h : ℕ) : String :=
  "<svg xmlns=\"http://www.w3.org/2000/svg\" width=\"" ++ toString outW ++
  "\" height=\"" ++ toString outH ++ "\" viewBox=\"0 0 " ++ toString w ++ " " ++
  toString h ++ "\">"

/-- Everything of the document after the opening tag: the `<defs>` with the
sharpening and vein filters, and the base and two vein rectangles. Note it
takes no resolution argument: past the opening tag the template never
mentions `outW`/`outH`. -/
def svgAfterOpen (s : ℕ → ℚ) (color : ColorPreset) (sharp : Bool) : String :=
  "\n  <defs>\n    <!-- Optional subtle sharpen to increase edge clarity without adding noise -->\n    <filter id=\"postsharp\" x=\"-2%\" y=\"-2%\" width=\"104%\" height=\"104%\" color-interpolation-filters=\"sRGB\">\n      <feConvolveMatrix order=\"3\" kernelMatrix=\"0 -1 0 -1 5 -1 0 -1 0\" divisor=\"1\" preserveAlpha=\"true\"/>\n    </filter>\n" ++
  veinFilter1Str s ++
  "\n    <!-- Second vein filter for a different layer (different seeds and frequencies) -->\n" ++
  veinFilter2Str s ++
  "  </defs>\n\n  " ++
  (if sharp then "<g filter=\"url(#postsharp)\">" else "<g>") ++
  "\n    <!-- Base slab color -->\n    <rect width=\"100%\" height=\"100%\" fill=\"" ++
  (colorPairs color).1 ++
  "\"/>\n\n    <!-- Veins: full coverage (no rotation to avoid edge artifacts) -->\n    <rect width=\"100%\" height=\"100%\" fill=\"" ++
  (colorPairs color).2 ++ "\" filter=\"url(#veinFilter)\" opacity=\"" ++
  veinOpacity1 color s ++
  "\"/>\n    <!-- Subtle additional veining layer for richness -->\n    <rect width=\"100%\" height=\"100%\" fill=\"" ++
  (colorPairs color).2 ++ "\" filter=\"url(#veinFilter2)\" opacity=\"" ++
  veinOpacity2 color s ++
  "\"/>\n  </g>\n</svg>"

/-- The complete SVG document for a draw stream `s` and the query parameters:
the source's `svg` template literal. -/
def svgString (s : ℕ → ℚ) (color : ColorPreset) (size : SizeClass)
    (resolution : Resolution) (sharp : Bool) : String :=
  svgOpenTag (outDimensions resolution size).1 (outDimensions resolution size).2
    (getDimensions size).1 (getDimensions size).2 ++
  svgAfterOpen s color sharp

/-- The SVG document generated by `MarbleImage.handle` for an explicit
timestamp: the draw stream is `mulberry32` seeded from `xmur3` of the seed
key. -/
def svgFor (username : Option String) (ts : ℤ) (color : ColorPreset)
    (size : SizeClass) (resolution : Resolution) (sharp : Bool) : String :=
  svgString (fun n => mulberry32Draw (xmur3Seed (seedStr username ts)) n)
    color size resolution sharp

/-- The PNG-branch dimension cap (lines 276-283): when a target dimension
exceeds 4096, both are scaled by `min(4096 / targetW, 4096 / targetH)`,
floored, and clamped to at least 1. -/
def capDimensions (w h : ℕ) : ℕ × ℕ :=
  let maxDim : ℕ := 4096
  if maxDim < w ∨ maxDim < h then
    let scale : ℚ := min ((maxDim : ℚ) / w) ((maxDim : ℚ) / h)
    (max 1 (⌊(w : ℚ) * scale⌋).toNat, max 1 (⌊(h : ℚ) * scale⌋).toNat)
  else (w, h)

/-- The response: its body (the vector text or the raster bytes) and its
headers. -/
structure ResponseModel where
  body : String ⊕ List ℕ
  headers : List (String × String)

/-- Headers of a successful PNG response. -/
def pngHeaders : List (String × String) :=
  [("Content-Type", "image/png"), ("Cache-Control", "no-store"),
   ("Content-Disposition", "attachment; filename=\"marble.png\"")]

/-- Headers of the rasterization-failure fallback response. -/
def fallbackHeaders : List (String × String) :=
  [("Content-Type", "image/svg+xml"),
   ("Content-Disposition", "attachment; filename=\"marble.svg\""),
   ("X-Marble-PNG-Fallback", "true")]

/-- Headers of the plain SVG response. -/
def svgHeaders : List (String × String) :=
  [("Content-Type", "image/svg+xml"),
   ("Content-Disposition", "attachment; filename=\"marble.svg\"")]

/-- The response assembly of `MarbleImage.handle` (lines 271-316): for `png`
output the rasterization outcome is consumed — bytes on success, the
`catch` branch's SVG fallback on any exception — and otherwise the SVG is
returned directly. Total in the rasterization outcome: an exception is
never re-thrown. -/
def handleOutput (outType : String) (rasterized : Except String (List ℕ))
    (svg : String) : ResponseModel :=
  if outType = "png" then
    match rasterized with
    | .ok png => ⟨.inr png, pngHeaders⟩
    | .error _ => ⟨.inl svg, fallbackHeaders⟩
  else ⟨.inl svg, svgHeaders⟩

theorem imul32_lt (x y : ℕ) : imul32 x y < 4294967296 :=
  Nat.mod_lt _ (by norm_num)

theorem shiftRight_self_le (x k : ℕ) : x >>> k ≤ x := by
  rw [Nat.shiftRight_eq_div_pow]
  exact Nat.div_le_self _ _

theorem xor32_lt {x y : ℕ} (hx : x < 4294967296) (hy : y < 4294967296) :
    Nat.xor x y < 4294967296 := by
  have h32 : (4294967296 : ℕ) = 2 ^ 32 := by norm_num
  rw [h32] at hx hy ⊢
  exact Nat.xor_lt_two_pow hx hy

theorem mulberry32Out_lt (a : ℕ) : mulberry32Out a < 4294967296 := by
  unfold mulberry32Out
  have h1 : imul32 (Nat.xor a (a >>> 15)) (a ||| 1) < 4294967296 := imul32_lt _ _
  have h2 :
      Nat.xor (imul32 (Nat.xor a (a >>> 15)) (a ||| 1))
        ((imul32 (Nat.xor a (a >>> 15)) (a ||| 1) +
            imul32
              (Nat.xor (imul32 (Nat.xor a (a >>> 15)) (a ||| 1))
                (imul32 (Nat.xor a (a >>> 15)) (a ||| 1) >>> 7))
              (imul32 (Nat.xor a (a >>> 15)) (a ||| 1) ||| 61)) % 4294967296) <
        4294967296 :=
    xor32_lt h1 (Nat.mod_lt _ (by norm_num))
  exact xor32_lt h2 (lt_of_le_of_lt (shiftRight_self_le _ _) h2)

/-- C7: every value of the `mulberry32` stream lies in [0, 1): the
accumulator advances by the odd constant 0x6d2b79f5 modulo 2^32
(`mulberry32State`/`mulberry32Next`), the two avalanche rounds
(`mulberry32Out`) keep the result below 2^32, and the draw is that 32-bit
word divided by 2^32. -/
theorem C7_rngRange : ∀ seed n : ℕ,
    mulberry32State seed (n + 1) = (mulberry32State seed n + 0x6d2b79f5) % 4294967296 ∧
    0 ≤ mulberry32Draw seed n ∧ mulberry32Draw seed n < 1 := by
  intro seed n
  refine ⟨rfl, ?_, ?_⟩
  · unfold mulberry32Draw
    positivity
  · unfold mulberry32Draw
    rw [div_lt_one (by norm_num)]
    exact_mod_cast mulberry32Out_lt (mulberry32State seed n)

/-- C1: the generator is a pure function of its inputs — two runs on the
same (username, explicit datetime, color, size, resolution, sharp) tuple
yield the same SVG document, byte for byte. The embedding is pure because,
with an explicit datetime, every value of `MarbleImage.handle` that reaches
the document is derived from the seed key and these parameters. -/
theorem C1_determinism :
    ∀ (u1 u2 : Option String) (t1 t2 : ℤ) (c1 c2 : ColorPreset)
      (z1 z2 : SizeClass) (r1 r2 : Resolution) (b1 b2 : Bool),
      u1 = u2 → t1 = t2 → c1 = c2 → z1 = z2 → r1 = r2 → b1 = b2 →
      svgFor u1 t1 c1 z1 r1 b1 = svgFor u2 t2 c2 z2 r2 b2 := by
  intro u1 u2 t1 t2 c1 c2 z1 z2 r1 r2 b1 b2 hu ht hc hz hr hb
  rw [hu, ht, hc, hz, hr, hb]

/-- Witness for C1 at a concrete input. -/
theorem C1_determinism_witness :
    svgFor (some "alice") 1700000000000 ColorPreset.black SizeClass.s1x1
        Resolution.native false =
      svgFor (some "alice") 1700000000000 ColorPreset.black SizeClass.s1x1
        Resolution.native false :=
  C1_determinism (some "alice") (some "alice") 1700000000000 1700000000000
    ColorPreset.black ColorPreset.black SizeClass.s1x1 SizeClass.s1x1
    Resolution.native Resolution.native false false rfl rfl rfl rfl rfl rfl

/-- C2 counterexample: at the concrete draw stream that is constantly 0, the
first vein filter contains a gamma contrast-curve step but the second vein
filter contains none — the claim that the gamma step is present in the
second filter just as in the first is false. -/
theorem C2_counterexample :
    (veinFilter1Steps fun _ => (0 : ℚ)).any isGammaContrastStep = true ∧
    (veinFilter2Steps fun _ => (0 : ℚ)).any isGammaContrastStep = false :=
  ⟨rfl, rfl⟩

/-- C2 amended: both vein filters convert their high-frequency noise to
grayscale and threshold it through the 64-entry table, but only the first
filter applies the gamma contrast curve between those steps; the second
filter has no gamma step and its table threshold reads the grayscale result
`veinGray2` directly. -/
theorem C2_veinFilters : ∀ s : ℕ → ℚ,
    (veinFilter1Steps s).any isGammaContrastStep = true ∧
    (veinFilter2Steps s).any isGammaContrastStep = false ∧
    FilterStep.colorMatrixSaturate "veinNoise2" "0" "veinGray2" ∈ veinFilter2Steps s ∧
    FilterStep.componentTransferTable "veinGray2" (tableValuesStr s) "veinMask0b" ∈
      veinFilter2Steps s ∧
    FilterStep.colorMatrixSaturate "veinNoise" "0" "veinGray" ∈ veinFilter1Steps s ∧
    FilterStep.componentTransferGamma "veinGray" (gammaR s) (gammaG s) (gammaB s)
        "veinContrast" ∈ veinFilter1Steps s ∧
    FilterStep.componentTransferTable "veinContrast" (tableValuesStr s) "veinMask0" ∈
      veinFilter1Steps s := by
  intro s
  refine ⟨rfl, rfl, ?_, ?_, ?_, ?_, ?_⟩ <;> simp [veinFilter1Steps, veinFilter2Steps]

theorem pulseOf_fifteen (i : ℕ) : pulseOf 15 i = 5 * i / 21 := by
  unfold pulseOf
  have hx : (i : ℚ) / 63 * ((15 : ℕ) : ℚ) = ((5 * i : ℕ) : ℚ) / ((21 : ℕ) : ℚ) := by
    push_cast
    ring
  rw [hx, Int.floor_toNat, Nat.floor_div_nat, Nat.floor_natCast]

theorem abs_band (y : ℚ) : (|y| * 2 < 3 / 25) ↔ (-(3/50) < y ∧ y < 3/50) := by
  constructor
  · intro h
    have h2 : |y| < 3/50 := by linarith
    exact abs_lt.1 h2
  · intro h
    have h2 := abs_lt.2 h
    linarith

theorem band_character : ∀ m : ℕ, m < 21 →
    ((|(m : ℚ) / ((21 : ℕ) : ℚ) - 0.5| * 2 < 3 / 25) ↔ (m = 10 ∨ m = 11)) := by
  intro m hm
  rw [abs_band]
  interval_cases m <;> norm_num

theorem tableEntry_fifteen (i : ℕ) :
    tableEntry 15 (3 / 25) i = if 5 * i % 21 = 10 ∨ 5 * i % 21 = 11 then "1" else "0" := by
  simp only [tableEntry]
  have hx : (i : ℚ) / 63 * ((15 : ℕ) : ℚ) = ((5 * i : ℕ) : ℚ) / ((21 : ℕ) : ℚ) := by
    push_cast
    ring
  rw [hx, Int.fract_div_natCast_eq_div_natCast_mod]
  exact if_congr (band_character (5 * i % 21) (Nat.mod_lt _ (by norm_num))) rfl rfl

/-- C3 counterexample: with draw 8 equal to 3579139414/2^32 (a value the
32-bit generator can emit, giving 15 pulses) and draw 9 equal to 0 (width
fraction 0.12), pulse 1 contains no "on" entry at all, so the table does not
contain an on-run for every pulse. -/
theorem C3_counterexample :
    pulsesOf (3579139414 / 4294967296) = 15 ∧
    pulseHasOn (3579139414 / 4294967296) 0 1 = false := by
  have hp : pulsesOf (3579139414 / 4294967296) = 15 := by
    have h5 : ⌊(3579139414 / 4294967296 : ℚ) * 6⌋ = 5 := by
      rw [Int.floor_eq_iff]
      constructor <;> norm_num
    unfold pulsesOf
    rw [h5]
    rfl
  have hw : widthFracOf 0 = 3 / 25 := by
    unfold widthFracOf
    norm_num
  refine ⟨hp, ?_⟩
  unfold pulseHasOn
  simp only [hp, hw, pulseOf_fifteen, tableEntry_fifteen]
  decide

/-- C3 amended: the threshold table always has exactly 64 entries, each "0"
or "1" (the per-pulse on-run part of the claim fails; see the
counterexample). -/
theorem C3_tableShape : ∀ r1 r2 : ℚ,
    (tableVals r1 r2).length = 64 ∧
    ((tableVals r1 r2).all fun v => v == "0" || v == "1") = true := by
  intro r1 r2
  refine ⟨by simp [tableVals], ?_⟩
  rw [List.all_eq_true]
  intro v hv
  obtain ⟨i, _, rfl⟩ := List.mem_map.1 hv
  dsimp only [tableEntry]
  split <;> rfl

/-- C4: when PNG output is requested and rasterization throws, the response
carries content-type `image/svg+xml`, the `X-Marble-PNG-Fallback` marker,
and the already-generated SVG document as its body; `handleOutput` is total
in the rasterization outcome, so the exception never escapes as a request
failure. -/
theorem C4_fallback (e svg : String) :
    (handleOutput "png" (Except.error e) svg).body = Sum.inl svg ∧
    ("Content-Type", "image/svg+xml") ∈ (handleOutput "png" (Except.error e) svg).headers ∧
    ("X-Marble-PNG-Fallback", "true") ∈ (handleOutput "png" (Except.error e) svg).headers := by
  have h : handleOutput "png" (Except.error e) svg = ⟨Sum.inl svg, fallbackHeaders⟩ := rfl
  rw [h]
  refine ⟨rfl, ?_, ?_⟩ <;> simp [fallbackHeaders]

theorem capDimensions_16x9 : capDimensions 7680 4320 = (4096, 2304) := by
  norm_num [capDimensions, min_def, Int.floor_eq_iff]
  exact ⟨rfl, rfl⟩

theorem capDimensions_9x16 : capDimensions 4320 7680 = (2304, 4096) := by
  norm_num [capDimensions, min_def, Int.floor_eq_iff]
  exact ⟨rfl, rfl⟩

theorem capDimensions_1x1 : capDimensions 7680 7680 = (4096, 4096) := by
  norm_num [capDimensions, min_def, Int.floor_eq_iff]
  first
  | exact ⟨rfl, rfl⟩
  | rfl

/-- C5: for every size class, the 8k declared dimensions passed to the PNG
branch are capped so that both target dimensions are at most 4096 and at
least 1, and the aspect ratio of the declared output dimensions is
preserved (exactly, the flooring being exact here). -/
theorem C5_resolutionCap : ∀ size : SizeClass,
    (capDimensions (outDimensions .r8k size).1 (outDimensions .r8k size).2).1 ≤ 4096 ∧
    (capDimensions (outDimensions .r8k size).1 (outDimensions .r8k size).2).2 ≤ 4096 ∧
    1 ≤ (capDimensions (outDimensions .r8k size).1 (outDimensions .r8k size).2).1 ∧
    1 ≤ (capDimensions (outDimensions .r8k size).1 (outDimensions .r8k size).2).2 ∧
    (capDimensions (outDimensions .r8k size).1 (outDimensions .r8k size).2).1 *
        (outDimensions .r8k size).2 =
      (capDimensions (outDimensions .r8k size).1 (outDimensions .r8k size).2).2 *
        (outDimensions .r8k size).1 := by
  intro size
  cases size with
  | s16x9 =>
      have h : capDimensions (outDimensions Resolution.r8k SizeClass.s16x9).1
          (outDimensions Resolution.r8k SizeClass.s16x9).2 = (4096, 2304) :=
        capDimensions_16x9
      rw [h]
      decide
  | s9x16 =>
      have h : capDimensions (outDimensions Resolution.r8k SizeClass.s9x16).1
          (outDimensions Resolution.r8k SizeClass.s9x16).2 = (2304, 4096) :=
        capDimensions_9x16
      rw [h]
      decide
  | s1x1 =>
      have h : capDimensions (outDimensions Resolution.r8k SizeClass.s1x1).1
          (outDimensions Resolution.r8k SizeClass.s1x1).2 = (4096, 4096) :=
        capDimensions_1x1
      rw [h]
      decide

/-- C6: the internal dimensions are 1600×900 / 900×1600 / 1000×1000 per size
class, 4k with 16:9 declares 3840×2160, and the document always opens with
the declared output dimensions from the resolution table while its viewBox
is built from the internal dimensions only — the part after the opening tag
(`svgAfterOpen`) takes no resolution argument, so only the declared
width/height attributes change with the resolution tier. -/
theorem C6_dimensions :
    getDimensions SizeClass.s16x9 = (1600, 900) ∧
    getDimensions SizeClass.s9x16 = (900, 1600) ∧
    getDimensions SizeClass.s1x1 = (1000, 1000) ∧
    outDimensions Resolution.r4k SizeClass.s16x9 = (3840, 2160) ∧
    ∀ (s : ℕ → ℚ) (c : ColorPreset) (size : SizeClass) (res : Resolution) (sh : Bool),
      svgString s c size res sh =
        svgOpenTag (outDimensions res size).1 (outDimensions res size).2
          (getDimensions size).1 (getDimensions size).2 ++ svgAfterOpen s c sh :=
  ⟨rfl, rfl, rfl, rfl, fun _ _ _ _ _ => rfl⟩

/-- C8: for draws in [0, 1), the primary vein-layer opacity value lies in
[0.35, 0.45) for black, [0.35, 0.50) for white and [0.22, 0.32) for the
other colors, and the secondary layer's opacity value is always strictly
below the primary one, its band sitting below the primary band for each
color class. -/
theorem C8_veinOpacity :
    ∀ (c : ColorPreset) (r r2 : ℚ), 0 ≤ r → r < 1 → 0 ≤ r2 → r2 < 1 →
      (c = ColorPreset.black →
        0.35 ≤ veinOpacity1Val c r ∧ veinOpacity1Val c r < 0.45) ∧
      (c = ColorPreset.white →
        0.35 ≤ veinOpacity1Val c r ∧ veinOpacity1Val c r < 0.50) ∧
      (c ≠ ColorPreset.black → c ≠ ColorPreset.white →
        0.22 ≤ veinOpacity1Val c r ∧ veinOpacity1Val c r < 0.32) ∧
      veinOpacity2Val c r2 < veinOpacity1Val c r := by
  intro c r r2 hr0 hr1 hs0 hs1
  cases c <;>
    simp only [veinOpacity1Val, veinOpacity2Val, if_true, if_false, reduceCtorEq,
      reduceIte] <;>
    refine ⟨?_, ?_, ?_, ?_⟩ <;>
    intros <;> first
      | (constructor <;> nlinarith)
      | nlinarith
      | simp_all

/-- Witness for C8 at the concrete input (blue, draws 1/2 and 1/2). -/
theorem C8_veinOpacity_witness :
    (ColorPreset.blue = ColorPreset.black →
      0.35 ≤ veinOpacity1Val ColorPreset.blue (1/2) ∧
      veinOpacity1Val ColorPreset.blue (1/2) < 0.45) ∧
    (ColorPreset.blue = ColorPreset.white →
      0.35 ≤ veinOpacity1Val ColorPreset.blue (1/2) ∧
      veinOpacity1Val ColorPreset.blue (1/2) < 0.50) ∧
    (ColorPreset.blue ≠ ColorPreset.black → ColorPreset.blue ≠ ColorPreset.white →
      0.22 ≤ veinOpacity1Val ColorPreset.blue (1/2) ∧
      veinOpacity1Val ColorPreset.blue (1/2) < 0.32) ∧
    veinOpacity2Val ColorPreset.blue (1/2) < veinOpacity1Val ColorPreset.blue (1/2) :=
  C8_veinOpacity ColorPreset.blue (1/2) (1/2) (by norm_num) (by norm_num)
    (by norm_num) (by norm_num)

/-- C9: the rotation draw (stream position 3) and the vein-contrast draw
(stream position 4) never reach the generated document: two runs whose draw
streams agree everywhere except at those positions produce identical SVG
strings. -/
theorem C9_unusedDraws :
    ∀ (s1 s2 : ℕ → ℚ) (c : ColorPreset) (size : SizeClass) (res : Resolution)
      (sh : Bool),
      (∀ i, i ≠ 3 → i ≠ 4 → s1 i = s2 i) →
      svgString s1 c size res sh = svgString s2 c size res sh := by
  intro s1 s2 c size res sh h
  simp only [svgString, svgOpenTag, svgAfterOpen, veinFilter1Str, veinFilter2Str,
    veinOpacity1, veinOpacity2, tableValuesStr, warpFx, warpFy, veinFx, veinFy,
    warpFx2, warpFy2, veinFx2, veinFy2, baseFreq, octaves, seedNoise, veinOct1,
    veinOct2, gammaR, gammaG, gammaB, dispScale1, dispScale2, blur1, blur2]
  rw [h 0 (by decide) (by decide), h 1 (by decide) (by decide),
    h 2 (by decide) (by decide), h 5 (by decide) (by decide),
    h 6 (by decide) (by decide), h 7 (by decide) (by decide),
    h 8 (by decide) (by decide), h 9 (by decide) (by decide),
    h 10 (by decide) (by decide), h 11 (by decide) (by decide),
    h 12 (by decide) (by decide), h 13 (by decide) (by decide),
    h 14 (by decide) (by decide), h 15 (by decide) (by decide),
    h 16 (by decide) (by decide), h 17 (by decide) (by decide)]

/-- Concrete draw stream for the C9 witness: constantly 0. -/
def witnessStream1 : ℕ → ℚ := fun _ => 0

/-- Concrete draw stream for the C9 witness: differs from `witnessStream1`
exactly at positions 3 and 4. -/
def witnessStream2 : ℕ → ℚ := fun i => if i = 3 then 1/2 else if i = 4 then 1/3 else 0

/-- Witness for C9 at the two concrete streams. -/
theorem C9_unusedDraws_witness :
    svgString witnessStream1 ColorPreset.black SizeClass.s1x1 Resolution.native false =
      svgString witnessStream2 ColorPreset.black SizeClass.s1x1 Resolution.native false :=
  C9_unusedDraws witnessStream1 witnessStream2 ColorPreset.black SizeClass.s1x1
    Resolution.native false
    (by
      intro i h3 h4
      simp [witnessStream1, witnessStream2, h3, h4])

/-- C10: the seed key concatenates username and timestamp with no separator,
so the distinct inputs (username "a1", timestamp 700000000000) and
(username "a", timestamp 1700000000000) share the seed key
"a1700000000000" and generate byte-identical documents for identical
remaining parameters. -/
theorem C10_seedCollision :
    seedStr (some "a1") 700000000000 = seedStr (some "a") 1700000000000 ∧
    (("a1" : String) == "a") = false ∧
    svgFor (some "a1") 700000000000 ColorPreset.black SizeClass.s1x1
        Resolution.native false =
      svgFor (some "a") 1700000000000 ColorPreset.black SizeClass.s1x1
        Resolution.native false := by
  have h : seedStr (some "a1") 700000000000 = seedStr (some "a") 1700000000000 := by
    decide
  refine ⟨h, rfl, ?_⟩
  simp only [svgFor]
  rw [h]

end Marble
